import Mathlib

/-!
Verification of `neurotic/scripts.py`, the command-line / launch layer of the
*neurotic* application.  The module is embedded shallowly:

* `parse_args` is modelled as a pure function from the argument vector and the
  current logging state to a parse outcome (normal return with an `Args`
  record, or a `SystemExit` with an exit code) together with the new logging
  state.  The argparse machinery is embedded as a left-to-right token scanner
  faithful to the declarative parser configuration in the source (positionals
  `file` and `dataset` with `nargs` set to optional, the four mutually
  exclusive boolean flag pairs, the two choice-validated options, the
  version action and the `--launch-example-notebook` flag).
* the logging side effects (`logger.parent.setLevel`, `libav` logger level)
  are explicit state passing on a `LogState` record;
* `launch_example_notebook`, `main` and `quick_launch` are given event-trace
  semantics: each call into the process/GUI/data layer becomes an event, and
  the possibility that a subprocess invocation raises `FileNotFoundError` is
  an `Except Unit` value supplied by an environment record.
-/

namespace Neurotic

/-- Numeric value of Python `logging.DEBUG`. -/
def logging_DEBUG : Nat := 10

/-- Numeric value of Python `logging.WARNING`. -/
def logging_WARNING : Nat := 30

/-- Numeric value of Python `logging.CRITICAL`. -/
def logging_CRITICAL : Nat := 50

/-- The mutable logging configuration touched by `parse_args`: the level of
the module logger's parent (`logger.parent.setLevel`) and the level of the
`libav` logger (`logging.getLogger('libav').setLevel`). -/
structure LogState where
  parent : Nat
  libav : Nat
deriving DecidableEq

/-- The namespace object returned by `parser.parse_args`: one field per
destination configured in `parse_args`. -/
structure Args where
  file : Option String
  dataset : Option String
  debug : Bool
  lazy : Bool
  thick_traces : Bool
  show_datetime : Bool
  ui_scale : String
  theme : String
  launch_example_notebook : Bool
deriving DecidableEq

/-- The `defaults` dictionary passed to `parser.set_defaults`, together with
the implicit `store_true` default `False` for `--launch-example-notebook`
(the only destination missing from the dictionary). -/
def defaults : Args :=
  { file := none
    dataset := none
    debug := false
    lazy := true
    thick_traces := false
    show_datetime := false
    ui_scale := "medium"
    theme := "light"
    launch_example_notebook := false }

/-- Modelled from the spec: `available_ui_scales` is imported from
`neurotic.gui.config`, which is outside the excerpted source.  The help text
fixes only the default (`medium`).  The list is used solely to validate an
explicitly supplied `--ui-scale` value, never a default, so no theorem below
depends on its exact contents. -/
def available_ui_scales : List String :=
  ["tiny", "small", "medium", "large", "huge"]

/-- Modelled from the spec: `available_themes` is imported from
`neurotic.gui.config`, which is outside the excerpted source.  The help text
fixes only the default (`light`).  The list is used solely to validate an
explicitly supplied `--theme` value, never a default, so no theorem below
depends on its exact contents. -/
def available_themes : List String :=
  ["light", "dark", "original", "printer-friendly"]

/-- Outcome of `parser.parse_args(argv[1:])`: either a `SystemExit` with the
given exit code (version action exits with 0, argument errors with 2), or a
normal return with the parsed namespace. -/
inductive ParseOutcome where
  | exit (code : Nat)
  | ok (args : Args)
deriving DecidableEq

/-- Internal scanner state: the namespace built so far, the number of
positional arguments already consumed, and for each of the four mutually
exclusive groups the option string already seen from that group (argparse
rejects a second, different option from the same group). -/
structure ParseState where
  args : Args
  npos : Nat
  seenDebug : Option String
  seenLazy : Option String
  seenThick : Option String
  seenShowDT : Option String
deriving DecidableEq

/-- A token is treated as an option if it starts with `-` and has at least
one further character; a lone `-` is a positional. -/
def isOptionToken (t : String) : Bool :=
  match t.data with
  | '-' :: _ :: _ => true
  | _ => false

/-- A token starting with `--` (a long option, eligible for `=` splitting). -/
def isLongOption (t : String) : Bool :=
  match t.data with
  | '-' :: '-' :: _ => true
  | _ => false

/-- Split a character list at the first `=`, returning the parts as strings. -/
def splitEqAux (acc : List Char) : List Char → Option (String × String)
  | [] => none
  | c :: cs =>
    if c = '=' then some (⟨acc.reverse⟩, ⟨cs⟩) else splitEqAux (c :: acc) cs

/-- Split a long option token `--opt=value` into the option string and the
explicit value, as argparse does; other tokens are returned unchanged. -/
def splitEq (t : String) : String × Option String :=
  if isLongOption t then
    match splitEqAux [] t.data with
    | none => (t, none)
    | some (n, v) => (n, some v)
  else (t, none)

/-- Conflict test for a mutually exclusive group: a second option from the
group is an error unless it is a repetition of the same option string. -/
def conflicts (seen : Option String) (nm : String) : Bool :=
  match seen with
  | none => false
  | some prev => prev != nm

/-- The token scanner embedding `parser.parse_args(argv[1:])` for the parser
configured in `parse_args`: positionals fill `file` then `dataset`; a bare
`--` makes every remaining token positional; `-V`/`--version` exits with
code 0; the four `store_true`/`store_false` pairs set their destinations and
are checked against their mutually exclusive groups; `--ui-scale` and
`--theme` consume a value (inline after `=` or the next token) validated
against the respective choices list; `--launch-example-notebook` sets its
flag; anything else, an extra positional, a missing or invalid option value,
an inline value on a zero-argument option, or a group conflict is an
argparse error, `SystemExit` with code 2.  (Argparse's unambiguous long
option abbreviations and its negative-number heuristic are not modelled; no
claim mentions them.) -/
def parseLoop : ParseState → List String → Bool → ParseOutcome
  | st, [], _ => .ok st.args
  | st, tok :: rest, posOnly =>
    if posOnly || !isOptionToken tok then
      match st.npos with
      | 0 =>
        parseLoop
          { st with args := { st.args with file := some tok }, npos := 1 }
          rest posOnly
      | 1 =>
        parseLoop
          { st with args := { st.args with dataset := some tok }, npos := 2 }
          rest posOnly
      | _ => .exit 2
    else if tok.data = ['-', '-'] then
      parseLoop st rest true
    else
      let p := splitEq tok
      let nm := p.1
      let inlineVal := p.2
      if nm == "-V" || nm == "--version" then
        if inlineVal.isSome then .exit 2 else .exit 0
      else if nm == "--debug" || nm == "--no-debug" then
        if inlineVal.isSome then .exit 2
        else if conflicts st.seenDebug nm then .exit 2
        else
          parseLoop
            { st with
                args := { st.args with debug := nm == "--debug" }
                seenDebug := some nm }
            rest posOnly
      else if nm == "--lazy" || nm == "--no-lazy" then
        if inlineVal.isSome then .exit 2
        else if conflicts st.seenLazy nm then .exit 2
        else
          parseLoop
            { st with
                args := { st.args with lazy := nm == "--lazy" }
                seenLazy := some nm }
            rest posOnly
      else if nm == "--thick-traces" || nm == "--no-thick-traces" then
        if inlineVal.isSome then .exit 2
        else if conflicts st.seenThick nm then .exit 2
        else
          parseLoop
            { st with
                args := { st.args with thick_traces := nm == "--thick-traces" }
                seenThick := some nm }
            rest posOnly
      else if nm == "--show-datetime" || nm == "--no-show-datetime" then
        if inlineVal.isSome then .exit 2
        else if conflicts st.seenShowDT nm then .exit 2
        else
          parseLoop
            { st with
                args := { st.args with show_datetime := nm == "--show-datetime" }
                seenShowDT := some nm }
            rest posOnly
      else if nm == "--launch-example-notebook" then
        if inlineVal.isSome then .exit 2
        else
          parseLoop
            { st with args := { st.args with launch_example_notebook := true } }
            rest posOnly
      else if nm == "--ui-scale" then
        match inlineVal with
        | some v =>
          if available_ui_scales.contains v then
            parseLoop { st with args := { st.args with ui_scale := v } }
              rest posOnly
          else .exit 2
        | none =>
          match rest with
          | [] => .exit 2
          | v :: rest2 =>
            if isOptionToken v then .exit 2
            else if available_ui_scales.contains v then
              parseLoop { st with args := { st.args with ui_scale := v } }
                rest2 posOnly
            else .exit 2
      else if nm == "--theme" then
        match inlineVal with
        | some v =>
          if available_themes.contains v then
            parseLoop { st with args := { st.args with theme := v } }
              rest posOnly
          else .exit 2
        | none =>
          match rest with
          | [] => .exit 2
          | v :: rest2 =>
            if isOptionToken v then .exit 2
            else if available_themes.contains v then
              parseLoop { st with args := { st.args with theme := v } }
                rest2 posOnly
            else .exit 2
      else .exit 2

/-- Parse the tokens `argv[1:]` starting from the configured defaults. -/
def parseArgv (tokens : List String) : ParseOutcome :=
  parseLoop ⟨defaults, 0, none, none, none, none⟩ tokens false

/-- Embedding of `parse_args(argv)`.  It hands `argv[1:]` to the parser; on a
`SystemExit` the logging state is untouched (the exception propagates before
the logging code runs); on a normal return the logging levels are
unconditionally overwritten according to `args.debug`: `DEBUG`/`WARNING` when
debugging was requested, `default_log_level`/`CRITICAL` otherwise.
`default_log_level` is imported from the package root, outside the excerpted
source, so it is a parameter `dll` here.  (The `logger.debug('Debug messages
enabled')` call emits a message without changing any level and is not
modelled.) -/
def parse_args (dll : Nat) (argv : List String) (st : LogState) :
    ParseOutcome × LogState :=
  match parseArgv (argv.drop 1) with
  | .exit c => (.exit c, st)
  | .ok args =>
    (.ok args,
      if args.debug then
        { parent := logging_DEBUG, libav := logging_WARNING }
      else
        { parent := dll, libav := logging_CRITICAL })

/-- The keyword arguments with which `win_from_args` constructs
`MainWindow`. -/
structure MainWindowArgs where
  file : Option String
  initial_selection : Option String
  lazy : Bool
  theme : String
  ui_scale : String
  support_increased_line_width : Bool
  show_datetime : Bool
deriving DecidableEq

/-- Embedding of `win_from_args(args)`: it builds the `MainWindow` keyword
arguments from the parsed namespace and does nothing else. -/
def win_from_args (args : Args) : MainWindowArgs :=
  { file := args.file
    initial_selection := args.dataset
    lazy := args.lazy
    theme := args.theme
    ui_scale := args.ui_scale
    support_increased_line_width := args.thick_traces
    show_datetime := args.show_datetime }

/-- Observable events of `launch_example_notebook`: the two
`subprocess.Popen` invocations and the two `logger.error` calls in the
`except FileNotFoundError` handlers. -/
inductive NBEvent where
  | popen_version
  | log_error_jupyter
  | popen_run
  | log_error_notebook
deriving DecidableEq

/-- Environment for `launch_example_notebook`: the outcome of each of the two
subprocess invocations, where `Except.error ()` models the call raising
`FileNotFoundError` and `Except.ok s` models a normal completion whose
captured stdout is `s`. -/
structure NotebookEnv where
  version_check : Except Unit String
  run_notebook : Except Unit String

/-- Embedding of `launch_example_notebook()`.  `out` starts as `None`; the
version check is run inside a `try`/`except FileNotFoundError` whose handler
logs an error and leaves `out` as `None`; only if `out` is truthy (the check
completed and produced non-empty output) is the second invocation run, again
inside a `try`/`except FileNotFoundError` whose handler logs an error.  Both
handlers make the function total: it always returns normally. -/
def launch_example_notebook (env : NotebookEnv) : List NBEvent :=
  match env.version_check with
  | .error _ => [.popen_version, .log_error_jupyter]
  | .ok out =>
    if out.data.isEmpty then
      [.popen_version]
    else
      match env.run_notebook with
      | .error _ => [.popen_version, .popen_run, .log_error_notebook]
      | .ok _ => [.popen_version, .popen_run]

/-- A rendering of claim C2's words, for comparison with the code: the module
holds exactly one `try`/`except`, around the version check, and no other
exception handling, so a `FileNotFoundError` raised by the second subprocess
invocation escapes (result `none`). -/
def launch_example_notebook_claimModel (env : NotebookEnv) :
    Option (List NBEvent) :=
  match env.version_check with
  | .error _ => some [.popen_version, .log_error_jupyter]
  | .ok out =>
    if out.data.isEmpty then
      some [.popen_version]
    else
      match env.run_notebook with
      | .error _ => none
      | .ok _ => some [.popen_version, .popen_run]

/-- Observable events of `main`: the alternate notebook mode's events, and
the GUI-path calls in source order. -/
inductive Event where
  | nb (e : NBEvent)
  | log_info (msg : String)
  | mkQApp
  | splash_create (pixmap : String)
  | splash_show
  | win_construct (w : MainWindowArgs)
  | win_show
  | splash_finish
  | app_exec
deriving DecidableEq

/-- The GUI branch of `main`, line by line: the info log, `mkQApp()`, the
splash screen construction and `splash.show()`, `win_from_args(args)` and
`win.show()`, `splash.finish(win)`, the ready log, and `app.exec_()`. -/
def main_gui_trace (args : Args) : List Event :=
  [.log_info "Loading user interface",
   .mkQApp,
   .splash_create ":/neurotic-logo-300.png",
   .splash_show,
   .win_construct (win_from_args args),
   .win_show,
   .splash_finish,
   .log_info "Ready",
   .app_exec]

/-- Embedding of `main()`: parse `sys.argv` (here `argv`), then either run
`launch_example_notebook()` or take the GUI path, according to
`args.launch_example_notebook`.  A `SystemExit` from parsing propagates
(trace `none`). -/
def main (dll : Nat) (argv : List String) (st : LogState) (env : NotebookEnv) :
    Option (List Event) × LogState :=
  match parse_args dll argv st with
  | (.exit _, st2) => (none, st2)
  | (.ok args, st2) =>
    if args.launch_example_notebook then
      (some ((launch_example_notebook env).map Event.nb), st2)
    else
      (some (main_gui_trace args), st2)

/-- Calls into the external data/visualization layer, the only collaborators
`quick_launch` touches: `load_dataset`, the `EphyviewerConfigurator`
constructor, and its `show_all` and `launch_ephyviewer` methods. -/
inductive ExtCall (M B : Type) where
  | load_dataset (metadata : M) (blk : Option B) (lazy : Bool)
  | newConfigurator (metadata : M) (blk : B) (lazy : Bool)
  | show_all
  | launch_ephyviewer
deriving DecidableEq

/-- Environment for `quick_launch`: the external `load_dataset` function,
returning the loaded block. -/
structure ExtEnv (M B : Type) where
  load_dataset : M → Option B → Bool → B

/-- Embedding of `quick_launch(metadata, blk, lazy)` (defaults
`metadata={}`, `blk=None`, `lazy=True`), statement by statement:
`blk = load_dataset(metadata, blk, lazy=lazy)`, then
`EphyviewerConfigurator(metadata, blk, lazy=lazy)` on the returned block,
then `show_all()`, then `launch_ephyviewer()`. -/
def quick_launch {M B : Type} (env : ExtEnv M B) (metadata : M)
    (blk : Option B) (lazy : Bool) : List (ExtCall M B) :=
  let blk2 := env.load_dataset metadata blk lazy
  [.load_dataset metadata blk lazy,
   .newConfigurator metadata blk2 lazy,
   .show_all,
   .launch_ephyviewer]

/-- The spec's (and docstring's) stated equivalent of `quick_launch`, written
from its words: call `load_dataset(metadata, blk, lazy=lazy)`, construct the
configurator with the result, call `show_all()`, call `launch_ephyviewer()`,
in exactly that order, with no other call into that layer. -/
def quick_launch_specModel {M B : Type} (env : ExtEnv M B) (metadata : M)
    (blk : Option B) (lazy : Bool) : List (ExtCall M B) :=
  [ExtCall.load_dataset metadata blk lazy,
   ExtCall.newConfigurator metadata (env.load_dataset metadata blk lazy) lazy,
   ExtCall.show_all,
   ExtCall.launch_ephyviewer]

/-- Helper: a normal return of `parse_args` splits into the pure parse of
`argv[1:]` and the logging-state overwrite determined by `args.debug`. -/
theorem parse_args_ok_split (dll : Nat) (argv : List String) (st : LogState)
    (args : Args) (st2 : LogState)
    (h : parse_args dll argv st = (.ok args, st2)) :
    parseArgv (argv.drop 1) = .ok args ∧
      st2 = if args.debug then
              { parent := logging_DEBUG, libav := logging_WARNING }
            else
              { parent := dll, libav := logging_CRITICAL } := by
  unfold parse_args at h
  cases hp : parseArgv (argv.drop 1) <;> rw [hp] at h <;>
    simp only [Prod.mk.injEq] at h
  · exact absurd h.1 (by simp)
  · obtain ⟨h1, h2⟩ := h
    cases h1
    exact ⟨rfl, h2.symm⟩

/-- Helper: when parsing succeeds, the trace of `main` is the notebook trace
or the GUI trace according to `args.launch_example_notebook`. -/
theorem main_ok_split (dll : Nat) (argv : List String) (st : LogState)
    (env : NotebookEnv) (args : Args)
    (h : (parse_args dll argv st).1 = .ok args) :
    (main dll argv st env).1 =
      some (if args.launch_example_notebook then
              (launch_example_notebook env).map Event.nb
            else
              main_gui_trace args) := by
  unfold main
  cases hp : parse_args dll argv st with
  | mk o s2 =>
    rw [hp] at h
    simp only at h
    cases h
    cases hflag : args.launch_example_notebook <;> simp [hflag]

/-- C1: `quick_launch(metadata, blk, lazy)` interacts with the external
data/visualization layer only through the stated sequence of calls: it calls
`load_dataset(metadata, blk, lazy=lazy)`, then constructs
`EphyviewerConfigurator(metadata, blk, lazy=lazy)` with the block returned by
`load_dataset`, then calls `show_all()`, then `launch_ephyviewer()`, in
exactly that order, and makes no other calls into that layer. -/
theorem quick_launch_external_calls (M B : Type) (env : ExtEnv M B)
    (metadata : M) (blk : Option B) (lazy : Bool) :
    quick_launch env metadata blk lazy =
      quick_launch_specModel env metadata blk lazy := rfl

/-- C2 counterexample: the module does not contain exactly one `try`/`except`.
With the version check reporting `6.0.3` and the second subprocess invocation
raising `FileNotFoundError`, the claim's one-handler rendering lets the
exception escape (`none`), but the code catches it in a second
`except FileNotFoundError` handler and logs an error, returning normally. -/
theorem launch_example_notebook_single_handler_false :
    launch_example_notebook
        { version_check := .ok "6.0.3", run_notebook := .error () }
      = [.popen_version, .popen_run, .log_error_notebook]
    ∧ launch_example_notebook_claimModel
        { version_check := .ok "6.0.3", run_notebook := .error () }
      = none := by
  exact ⟨rfl, rfl⟩

/-- C2 amended: the module's failure handling consists of two `try`/`except`
blocks, both in `launch_example_notebook`, each wrapping a subprocess
invocation and each catching `FileNotFoundError`; no other exception handling
exists in the module.  A `FileNotFoundError` from the version check is caught
and an error logged, the launch being skipped; a `FileNotFoundError` from the
notebook launch is caught and an error logged; in both cases the function
returns normally. -/
theorem launch_example_notebook_error_handling (rn : Except Unit String)
    (s : String) (hs : s.data.isEmpty = false) :
    launch_example_notebook { version_check := .error (), run_notebook := rn }
      = [.popen_version, .log_error_jupyter]
    ∧ launch_example_notebook
        { version_check := .ok s, run_notebook := .error () }
      = [.popen_version, .popen_run, .log_error_notebook] := by
  refine ⟨rfl, ?_⟩
  simp [launch_example_notebook, hs]

/-- Witness for C2 amended at concrete subprocess outcomes. -/
theorem launch_example_notebook_error_handling_witness :
    launch_example_notebook
        { version_check := .error (), run_notebook := Except.ok "x" }
      = [.popen_version, .log_error_jupyter]
    ∧ launch_example_notebook
        { version_check := .ok "6.0.3", run_notebook := .error () }
      = [.popen_version, .popen_run, .log_error_notebook] :=
  launch_example_notebook_error_handling (Except.ok "x") "6.0.3" (by decide)

/-- C3: `parse_args` toggles the logging verbosity by a conditional branch on
the parsed debug flag: whenever it returns, if the parsed result has
`debug=True` the parent logger's level is set to `logging.DEBUG` and the
`libav` logger's level to `logging.WARNING`; if `debug=False` the parent
logger's level is set to `default_log_level` and the `libav` logger's level
to `logging.CRITICAL`. -/
theorem parse_args_debug_levels (dll : Nat) (argv : List String)
    (st : LogState) (args : Args) (st2 : LogState)
    (h : parse_args dll argv st = (.ok args, st2)) :
    st2 = if args.debug then
            { parent := logging_DEBUG, libav := logging_WARNING }
          else
            { parent := dll, libav := logging_CRITICAL } :=
  (parse_args_ok_split dll argv st args st2 h).2

/-- Witness for C3 on the concrete call `parse_args 20 ["neurotic",
"--debug"]`. -/
theorem parse_args_debug_levels_witness :
    ({ parent := logging_DEBUG, libav := logging_WARNING } : LogState) =
      if ({ defaults with debug := true } : Args).debug then
        { parent := logging_DEBUG, libav := logging_WARNING }
      else
        { parent := 20, libav := logging_CRITICAL } :=
  parse_args_debug_levels 20 ["neurotic", "--debug"] { parent := 0, libav := 0 }
    { defaults with debug := true }
    { parent := logging_DEBUG, libav := logging_WARNING } (by decide)

/-- C4: `main` dispatches on the alternate notebook mode: when the parse
yields `launch_example_notebook=True`, `main` runs
`launch_example_notebook()` and creates no Qt application, splash screen or
main window and enters no event loop; when it yields
`launch_example_notebook=False`, `main` takes the GUI path and never calls
into `launch_example_notebook`. -/
theorem main_dispatch (dll : Nat) (argv : List String) (st : LogState)
    (env : NotebookEnv) (args : Args) (t : List Event)
    (hp : (parse_args dll argv st).1 = .ok args)
    (hm : (main dll argv st env).1 = some t) :
    (t = if args.launch_example_notebook then
           (launch_example_notebook env).map Event.nb
         else
           main_gui_trace args)
    ∧ (args.launch_example_notebook = true →
        Event.mkQApp ∉ t
        ∧ Event.splash_create ":/neurotic-logo-300.png" ∉ t
        ∧ Event.splash_show ∉ t
        ∧ Event.win_construct (win_from_args args) ∉ t
        ∧ Event.win_show ∉ t
        ∧ Event.splash_finish ∉ t
        ∧ Event.app_exec ∉ t)
    ∧ (args.launch_example_notebook = false →
        Event.nb NBEvent.popen_version ∉ t
        ∧ Event.nb NBEvent.popen_run ∉ t
        ∧ Event.nb NBEvent.log_error_jupyter ∉ t
        ∧ Event.nb NBEvent.log_error_notebook ∉ t) := by
  have hsplit := main_ok_split dll argv st env args hp
  rw [hm] at hsplit
  have ht : t = if args.launch_example_notebook then
      (launch_example_notebook env).map Event.nb
    else main_gui_trace args := by
    exact Option.some.inj hsplit
  refine ⟨ht, ?_, ?_⟩
  · intro hflag
    rw [ht, hflag]
    simp
  · intro hflag
    rw [ht, hflag]
    simp [main_gui_trace]

/-- Witness for C4 on the concrete call `main 20 ["neurotic",
"--launch-example-notebook"]` with the version check raising. -/
theorem main_dispatch_witness :
    ([Event.nb NBEvent.popen_version, Event.nb NBEvent.log_error_jupyter]
        = if ({ defaults with launch_example_notebook := true } : Args).launch_example_notebook then
            (launch_example_notebook
              { version_check := .error (), run_notebook := Except.ok "" }).map Event.nb
          else
            main_gui_trace { defaults with launch_example_notebook := true })
    ∧ (Event.mkQApp ∉
          [Event.nb NBEvent.popen_version, Event.nb NBEvent.log_error_jupyter]
        ∧ Event.splash_create ":/neurotic-logo-300.png" ∉
          [Event.nb NBEvent.popen_version, Event.nb NBEvent.log_error_jupyter]
        ∧ Event.splash_show ∉
          [Event.nb NBEvent.popen_version, Event.nb NBEvent.log_error_jupyter]
        ∧ Event.win_construct
            (win_from_args { defaults with launch_example_notebook := true }) ∉
          [Event.nb NBEvent.popen_version, Event.nb NBEvent.log_error_jupyter]
        ∧ Event.win_show ∉
          [Event.nb NBEvent.popen_version, Event.nb NBEvent.log_error_jupyter]
        ∧ Event.splash_finish ∉
          [Event.nb NBEvent.popen_version, Event.nb NBEvent.log_error_jupyter]
        ∧ Event.app_exec ∉
          [Event.nb NBEvent.popen_version, Event.nb NBEvent.log_error_jupyter]) :=
  ⟨(main_dispatch 20 ["neurotic", "--launch-example-notebook"]
      { parent := 0, libav := 0 }
      { version_check := .error (), run_notebook := Except.ok "" }
      { defaults with launch_example_notebook := true }
      [Event.nb NBEvent.popen_version, Event.nb NBEvent.log_error_jupyter]
      (by decide) (by decide)).1,
   (main_dispatch 20 ["neurotic", "--launch-example-notebook"]
      { parent := 0, libav := 0 }
      { version_check := .error (), run_notebook := Except.ok "" }
      { defaults with launch_example_notebook := true }
      [Event.nb NBEvent.popen_version, Event.nb NBEvent.log_error_jupyter]
      (by decide) (by decide)).2.1 rfl⟩

/-- C5: in GUI mode (`launch_example_notebook=False`) `main` performs its
steps in order: the splash screen is created and shown before the main window
is constructed; the main window is constructed from the parsed args and then
shown; the splash screen is finished against the window; and the blocking
event loop `app.exec_()` is entered last, after every other step (it is the
final event and occurs nowhere earlier). -/
theorem main_gui_order (dll : Nat) (argv : List String) (st : LogState)
    (env : NotebookEnv) (args : Args) (t : List Event)
    (hp : (parse_args dll argv st).1 = .ok args)
    (hnb : args.launch_example_notebook = false)
    (hm : (main dll argv st env).1 = some t) :
    [Event.splash_create ":/neurotic-logo-300.png", Event.splash_show,
     Event.win_construct (win_from_args args), Event.win_show,
     Event.splash_finish, Event.app_exec].Sublist t
    ∧ t.getLast? = some Event.app_exec
    ∧ Event.app_exec ∉ t.dropLast := by
  have hsplit := main_ok_split dll argv st env args hp
  rw [hm, hnb] at hsplit
  simp only [if_neg Bool.false_ne_true] at hsplit
  have ht : t = main_gui_trace args := Option.some.inj hsplit
  subst ht
  refine ⟨?_, rfl, ?_⟩
  · exact .cons _ (.cons _ (.cons₂ _ (.cons₂ _ (.cons₂ _ (.cons₂ _
      (.cons₂ _ (.cons _ (.cons₂ _ .slnil))))))))
  · simp [main_gui_trace, List.dropLast]

/-- Witness for C5 on the concrete call `main 20 ["neurotic"]`. -/
theorem main_gui_order_witness :
    [Event.splash_create ":/neurotic-logo-300.png", Event.splash_show,
     Event.win_construct (win_from_args defaults), Event.win_show,
     Event.splash_finish, Event.app_exec].Sublist (main_gui_trace defaults)
    ∧ (main_gui_trace defaults).getLast? = some Event.app_exec
    ∧ Event.app_exec ∉ (main_gui_trace defaults).dropLast :=
  main_gui_order 20 ["neurotic"] { parent := 0, libav := 0 }
    { version_check := Except.ok "", run_notebook := Except.ok "" }
    defaults (main_gui_trace defaults) (by decide) rfl rfl

/-- C6: `win_from_args` constructs the main window purely from the parsed
arguments: it returns `MainWindow` called with `file=args.file`,
`initial_selection=args.dataset`, `lazy=args.lazy`, `theme=args.theme`,
`ui_scale=args.ui_scale`, `support_increased_line_width=args.thick_traces`
and `show_datetime=args.show_datetime`, passing no other data. -/
theorem win_from_args_fields (args : Args) :
    win_from_args args =
      { file := args.file
        initial_selection := args.dataset
        lazy := args.lazy
        theme := args.theme
        ui_scale := args.ui_scale
        support_increased_line_width := args.thick_traces
        show_datetime := args.show_datetime } := rfl

/-- C7: with an argv containing no options beyond the program name, the
parsed result has `file=None`, `dataset=None`, `debug=False`, `lazy=True`,
`thick_traces=False`, `show_datetime=False`, `ui_scale='medium'`,
`theme='light'` and `launch_example_notebook=False`. -/
theorem parse_args_default_values (dll : Nat) (st : LogState) :
    (parse_args dll ["neurotic"] st).1 =
      .ok { file := none
            dataset := none
            debug := false
            lazy := true
            thick_traces := false
            show_datetime := false
            ui_scale := "medium"
            theme := "light"
            launch_example_notebook := false } := rfl

/-- C8: the first element of argv never influences `parse_args`: two argument
vectors that differ only at index 0 give equal results and the same
logging-level effects, because only `argv[1:]` reaches the parser. -/
theorem parse_args_ignores_argv0 (dll : Nat) (a b : String)
    (rest : List String) (st : LogState) :
    parse_args dll (a :: rest) st = parse_args dll (b :: rest) st := rfl

/-- C9: `parse_args` is never a pure parse: whenever it returns, the logging
state is in exactly one of two configurations — parent at `DEBUG` with
`libav` at `WARNING`, or parent at `default_log_level` with `libav` at
`CRITICAL` — regardless of the state it started from; the levels are always
overwritten. -/
theorem parse_args_always_sets_levels (dll : Nat) (argv : List String)
    (st : LogState) (args : Args) (st2 : LogState)
    (h : parse_args dll argv st = (.ok args, st2)) :
    st2 = { parent := logging_DEBUG, libav := logging_WARNING }
    ∨ st2 = { parent := dll, libav := logging_CRITICAL } := by
  have h2 := (parse_args_ok_split dll argv st args st2 h).2
  cases hd : args.debug <;> rw [hd] at h2 <;> simp at h2
  · exact Or.inr h2
  · exact Or.inl h2

/-- Witness for C9 on the concrete call `parse_args 20 ["neurotic"]` from a
scrambled initial logging state. -/
theorem parse_args_always_sets_levels_witness :
    ({ parent := 20, libav := logging_CRITICAL } : LogState) =
      { parent := logging_DEBUG, libav := logging_WARNING }
    ∨ ({ parent := 20, libav := logging_CRITICAL } : LogState) =
      { parent := 20, libav := logging_CRITICAL } :=
  parse_args_always_sets_levels 20 ["neurotic"] { parent := 99, libav := 99 }
    defaults { parent := 20, libav := logging_CRITICAL } (by decide)

/-- C10: if the `jupyter notebook --version` check runs without raising but
produces falsy (empty) output, `launch_example_notebook` returns after the
single version-check invocation, attempting no notebook launch and logging no
error; if the check raises, the launch is likewise not attempted; and the
second subprocess invocation is attempted when the check succeeds with
non-empty output. -/
theorem notebook_version_check_gate (rn rn2 rn3 : Except Unit String)
    (s s2 : String) (hs : s.data.isEmpty = true)
    (h2 : s2.data.isEmpty = false) :
    launch_example_notebook { version_check := .ok s, run_notebook := rn }
      = [.popen_version]
    ∧ launch_example_notebook
        { version_check := .error (), run_notebook := rn2 }
      = [.popen_version, .log_error_jupyter]
    ∧ NBEvent.popen_run ∈
        launch_example_notebook { version_check := .ok s2, run_notebook := rn3 } := by
  refine ⟨by simp [launch_example_notebook, hs], rfl, ?_⟩
  cases rn3 <;> simp [launch_example_notebook, h2]

/-- Witness for C10 at concrete subprocess outcomes: empty version output,
raising version check, and non-empty version output. -/
theorem notebook_version_check_gate_witness :
    launch_example_notebook
        { version_check := Except.ok "", run_notebook := Except.ok "" }
      = [.popen_version]
    ∧ launch_example_notebook
        { version_check := .error (), run_notebook := Except.ok "" }
      = [.popen_version, .log_error_jupyter]
    ∧ NBEvent.popen_run ∈
        launch_example_notebook
          { version_check := Except.ok "6.0.3", run_notebook := Except.ok "" } :=
  notebook_version_check_gate (Except.ok "") (Except.ok "") (Except.ok "")
    "" "6.0.3" rfl (by decide)

end Neurotic
